import Mathlib

/-!
Verification of the download API in src/api/main.py.

The module embeds the pure decision logic of the service: the filename
resolver, the content-disposition builder, and the streaming download
generator.  External effects (spawned processes, the filesystem) are
represented by explicit data: a process run is a `ProcResult` record of
exit status and captured output, and the filesystem facts consulted by
the generator are fields of an `Env` record.  The generator itself is
embedded as a function producing the ordered trace of its side effects
and emitted server-sent events.

String primitives from Python (strip, splitlines, startswith, endswith,
slicing) are modelled by structurally recursive functions over the
character list of a `String`, so that every definition evaluates by
kernel reduction on concrete inputs.
-/

namespace YtApi

/-- Outcome of one external process run: exit status plus the captured
standard output and standard error streams. -/
structure ProcResult where
  returncode : Int
  stdout : String
  stderr : String
  deriving DecidableEq, Repr

/-- Python str.strip over the usual whitespace characters. -/
def pyStrip (s : String) : String :=
  String.mk (((s.data.dropWhile Char.isWhitespace).reverse.dropWhile Char.isWhitespace).reverse)

/-- Split a character list at each occurrence of the separator. -/
def splitCharsAux (sep : Char) : List Char → List Char → List String
  | [], acc => [String.mk acc.reverse]
  | c :: cs, acc =>
      if c = sep then String.mk acc.reverse :: splitCharsAux sep cs []
      else splitCharsAux sep cs (c :: acc)

/-- Split a string at each occurrence of the separator character. -/
def splitOnChar (sep : Char) (s : String) : List String :=
  splitCharsAux sep s.data []

/-- Python splitlines, modelled as newline splitting; every produced line
is subsequently stripped by the caller, so representation differences on
blank segments are immaterial. -/
def splitlines (s : String) : List String := splitOnChar (Char.ofNat 10) s

/-- Python str.endswith. -/
def strEndsWith (s suffx : String) : Bool := suffx.data.isSuffixOf s.data

/-- Python str.startswith. -/
def strStartsWith (s pre : String) : Bool := pre.data.isPrefixOf s.data

/-- Python s[:-n], dropping the last n characters. -/
def strDropLast (s : String) (n : Nat) : String :=
  String.mk (s.data.take (s.data.length - n))

/-- Python `a or b` on strings: b when a is empty, a otherwise. -/
def pyOr (a b : String) : String := if a = "" then b else a

/-- Final path component of a string path, as computed by
pathlib.PurePath name: empty and single-dot components are discarded and
the last remaining component is returned, or the empty string. -/
def posixName (s : String) : String :=
  ((splitOnChar (Char.ofNat 47) s).filter (fun part => part ≠ "" ∧ part ≠ ".")).getLastD ""

/-- Rewrite of a trailing .webm extension to .mp3, as in line 78 of
src/api/main.py. -/
def webmToMp3 (s : String) : String :=
  if strEndsWith s ".webm" then strDropLast s 5 ++ ".mp3" else s

/-- The selection loop of _resolve_output_filename over the reversed
printed lines: strip, rewrite a trailing .webm, return the path name of
the first nonempty candidate. -/
def pickName : List String → Option String
  | [] => none
  | line :: rest =>
      let stripped := webmToMp3 (pyStrip line)
      if stripped ≠ "" then some (posixName stripped) else pickName rest

/-- Embedding of _resolve_output_filename, as a function of the outcome
of the dry-run process it spawns. -/
def resolveOutputFilename (p : ProcResult) : Except String String :=
  if p.returncode ≠ 0 then
    Except.error (pyOr (pyStrip p.stderr) (pyOr (pyStrip p.stdout) "Failed to resolve filename"))
  else
    match pickName (splitlines p.stdout).reverse with
    | some name => Except.ok name
    | none => Except.error "Filename not provided by yt-dlp"

/-- Apostrophe character, kept out of string literals. -/
def apos : Char := Char.ofNat 39

/-- Sanitisation step of _build_content_disposition: double quotes are
removed and carriage returns and newlines become spaces. -/
def pySanitize (filename : String) : String :=
  ((filename.replace "\"" "").replace "\r" " ").replace "\n" " "

/-- Python encode ascii ignore then decode: keep the characters whose
code point is below 128. -/
def asciiIgnore (s : String) : String :=
  String.mk (s.data.filter (fun c => c.toNat < 128))

/-- Uppercase hexadecimal digit. -/
def hexDigit (n : Nat) : Char :=
  if n < 10 then Char.ofNat (48 + n) else Char.ofNat (55 + n)

/-- UTF-8 encoding of one character, as a list of byte values. -/
def utf8Bytes (c : Char) : List Nat :=
  let n := c.toNat
  if n < 128 then [n]
  else if n < 2048 then [192 + n / 64, 128 + n % 64]
  else if n < 65536 then [224 + n / 4096, 128 + (n / 64) % 64, 128 + n % 64]
  else [240 + n / 262144, 128 + (n / 4096) % 64, 128 + (n / 64) % 64, 128 + n % 64]

/-- Bytes left untouched by urllib quote with its default safe set:
letters, digits, underscore, dot, hyphen, tilde and the slash. -/
def quoteSafe (b : Nat) : Bool :=
  (65 ≤ b && b ≤ 90) || (97 ≤ b && b ≤ 122) || (48 ≤ b && b ≤ 57) ||
    b == 45 || b == 46 || b == 95 || b == 126 || b == 47

/-- Percent-encoding of one byte value. -/
def quoteByte (b : Nat) : String :=
  if quoteSafe b then String.mk [Char.ofNat b]
  else String.mk [Char.ofNat 37, hexDigit (b / 16), hexDigit (b % 16)]

/-- Embedding of urllib.parse.quote: percent-encode the UTF-8 bytes of
the string, keeping the safe bytes verbatim. -/
def pyQuote (s : String) : String :=
  String.join ((s.data.map (fun c => String.join ((utf8Bytes c).map quoteByte))))

/-- Embedding of _build_content_disposition. -/
def buildContentDisposition (filename : String) : String :=
  let sanitized := pySanitize filename
  let asciiFallback := pyOr (asciiIgnore sanitized) "audio.mp3"
  let encoded := pyQuote sanitized
  "attachment; filename=\"" ++ asciiFallback ++ "\"; filename*=UTF-8" ++
    String.mk [apos, apos] ++ encoded

/-- Server-sent events emitted by the streaming generator: plain log
frames and the two terminal frame kinds. -/
inductive Event
  | log (message : String)
  | error (message : String)
  | complete (filename : String)
  deriving DecidableEq, Repr

/-- Observable actions of one run of _stream_download, in order:
directory creation, modification-time touches, the two process spawns,
and every yielded frame. -/
inductive Step
  | mkdirParents (path : String)
  | touch (path : String)
  | spawnResolver
  | spawnExtractor
  | emit (e : Event)
  deriving DecidableEq, Repr

/-- State of the world consulted by one run of _stream_download: the
canonical form of the requested destination, the canonical home
directory, the filesystem answers at each check, and the outcomes of the
two external processes. -/
structure Env where
  /-- Result of Path(dest).expanduser().resolve(). -/
  resolvedDest : String
  /-- Result of Path.home().resolve(). -/
  home : String
  /-- Whether candidate.exists() holds before any mkdir. -/
  destExists : Bool
  /-- Whether candidate.mkdir(parents, exist_ok) succeeds. -/
  mkdirOk : Bool
  /-- Message of the exception raised by a failing mkdir. -/
  mkdirErr : String
  /-- Whether candidate.is_dir() holds at the check. -/
  isDir : Bool
  /-- Outcome of the dry-run resolver process. -/
  resolver : ProcResult
  /-- Whether the predicted destination file already exists. -/
  fileExists : Bool
  /-- Decoded lines read from the extraction process output. -/
  extractLines : List String
  /-- Exit status of the extraction process. -/
  extractExit : Int
  /-- Whether the destination file exists after extraction. -/
  producedExists : Bool
  deriving Repr

/-- Components of a path string, empty segments dropped. -/
def pathParts (p : String) : List String :=
  (splitOnChar (Char.ofNat 47) p).filter (fun c => c ≠ "")

/-- Embedding of PurePath.is_relative_to for canonical absolute paths:
the components of the root are an initial segment of the components of
the path. -/
def isRelativeTo (p root : String) : Bool :=
  (pathParts root).isPrefixOf (pathParts p)

/-- Guard of line 89 of src/api/main.py: the destination is missing when
it is absent, empty or whitespace-only. -/
def destMissing : Option String → Bool
  | none => true
  | some d => pyStrip d = ""

/-- Messages yielded by the supervision loop of lines 117 to 125: each
line is stripped and blank lines and warning lines are suppressed. -/
def logMessages (ls : List String) : List String :=
  ls.filterMap (fun line =>
    let text := pyStrip line
    if text = "" ∨ strStartsWith text "WARNING:" = true then none else some text)

/-- Directory-creation steps of lines 94 and 95: mkdir runs only when
the candidate does not exist yet. -/
def mkdirSteps (env : Env) : List Step :=
  if env.destExists then [] else [Step.mkdirParents env.resolvedDest]

/-- Extraction phase of _stream_download (lines 109 to 142, cache-miss
side): spawn, forward the filtered log lines, then interpret the exit
status and verify the artifact. -/
def extractPhase (destination filename : String) (env : Env) : List Step :=
  Step.spawnExtractor ::
    ((logMessages env.extractLines).map (fun text => Step.emit (Event.log text)) ++
      (if env.extractExit ≠ 0 then
        [Step.emit (Event.error ("yt-dlp exited with status " ++ toString env.extractExit))]
      else if env.producedExists = false then
        [Step.emit (Event.error "No audio file produced")]
      else
        [Step.touch destination, Step.emit (Event.complete filename)]))

/-- Post-resolution phase of _stream_download (lines 102 to 142): cache
hit touches and reuses the artifact, cache miss delegates to the
extraction phase; both end with the completion frame. -/
def downloadPhase (filename : String) (env : Env) : List Step :=
  let destination := env.resolvedDest ++ "/" ++ filename
  if env.fileExists then
    [Step.touch destination,
     Step.emit (Event.log ("Using cached audio for " ++ filename)),
     Step.emit (Event.complete filename)]
  else
    extractPhase destination filename env

/-- Embedding of _stream_download as the ordered trace of its side
effects and yielded frames, for a given destination argument and world
state.  Every exception of the source is routed to the error frame the
outermost handler would yield for it. -/
def streamDownload (dest : Option String) (env : Env) : List Step :=
  if destMissing dest then
    [Step.emit (Event.error "Destination directory is required")]
  else if !env.destExists && !env.mkdirOk then
    mkdirSteps env ++ [Step.emit (Event.error env.mkdirErr)]
  else if !env.isDir || !isRelativeTo env.resolvedDest env.home then
    mkdirSteps env ++ [Step.emit (Event.error "Destination must be a directory under the home folder")]
  else
    mkdirSteps env ++ (Step.spawnResolver ::
      (match resolveOutputFilename env.resolver with
       | Except.error detail => [Step.emit (Event.error detail)]
       | Except.ok filename => downloadPhase filename env))

/-- Frames of a trace, in order. -/
def events (trace : List Step) : List Event :=
  trace.filterMap (fun s => match s with | Step.emit e => some e | _ => none)

/-- Terminal frames are the error and complete frames. -/
def isTerminal : Event → Bool
  | Event.log _ => false
  | Event.error _ => true
  | Event.complete _ => true

/-- Recogniser for completion frames. -/
def Event.isComplete : Event → Bool
  | Event.complete _ => true
  | _ => false

/-- A frame list is well terminated when it is nonempty, its last frame
is terminal, and no earlier frame is. -/
def terminalOk (es : List Event) : Bool :=
  match es.getLast? with
  | none => false
  | some e => isTerminal e && es.dropLast.all (fun x => !isTerminal x)

/-- Fixture for the cache-hit witness: an existing home subdirectory and
an artifact already present for the resolved filename. -/
def envCacheHit : Env :=
  ⟨"/home/u/music", "/home/u", true, true, "", true, ⟨0, "My Song.webm", ""⟩, true, [], 0, true⟩

/-- Fixture for the sandbox witness: an existing path inside the home
root that is a regular file rather than a directory. -/
def envSandbox : Env :=
  ⟨"/home/u/file.txt", "/home/u", true, true, "", false, ⟨0, "", ""⟩, false, [], 0, false⟩

/-- Fixture for the extraction-failure witness: a cache miss whose
extraction process prints two meaningful lines, a warning and a blank
line, then exits with status one. -/
def envExitFail : Env :=
  ⟨"/home/u/music", "/home/u", true, true, "", true, ⟨0, "My Song.webm", ""⟩, false,
    ["[download] Destination: x", "WARNING: ignore me", "  ", "ERROR: video unavailable"], 1, false⟩

/-- Fixture for the missing-artifact witness: a cache miss whose
extraction process exits zero without producing the expected file. -/
def envNoFile : Env :=
  ⟨"/home/u/music", "/home/u", true, true, "", true, ⟨0, "My Song.webm", ""⟩, false,
    ["[ExtractAudio] done"], 0, false⟩

/-- Fixture for the out-of-root creation witness: a destination outside
the home root that does not exist yet and whose creation succeeds. -/
def envOutside : Env :=
  ⟨"/tmp/escape", "/home/u", false, true, "", false, ⟨0, "", ""⟩, false, [], 0, false⟩

/-- Fixture for the missing-destination theorems: an arbitrary world
state, unused because the run rejects before consulting it. -/
def envBare : Env :=
  ⟨"/", "/", false, false, "", false, ⟨0, "", ""⟩, false, [], 0, false⟩

lemma webmToMp3_ne_empty {s : String} (h : s ≠ "") : webmToMp3 s ≠ "" := by
  unfold webmToMp3
  split
  · intro hc
    have hd : (strDropLast s 5).data ++ ".mp3".data = ([] : List Char) := congrArg String.data hc
    exact absurd (List.append_eq_nil.mp hd).2 (by decide)
  · exact h

lemma pickName_eq (ls : List String) :
    pickName ls =
      (ls.find? (fun l => pyStrip l != "")).map (fun l => posixName (webmToMp3 (pyStrip l))) := by
  induction ls with
  | nil => rfl
  | cons line rest ih =>
      by_cases h : pyStrip line = ""
      · have hw : webmToMp3 (pyStrip line) = "" := by rw [h]; rfl
        have hp : (pyStrip line != "") = false := by simp [h]
        simp [pickName, hw, hp, List.find?_cons, ih]
      · have hw : webmToMp3 (pyStrip line) ≠ "" := webmToMp3_ne_empty h
        have hp : (pyStrip line != "") = true := by simp [h]
        simp [pickName, hw, hp, List.find?_cons]

lemma find?_head_filter {α : Type} (p : α → Bool) (l : List α) :
    l.find? p = (l.filter p).head? := by
  induction l with
  | nil => rfl
  | cons a t ih =>
      cases h : p a
      · rw [List.find?_cons, List.filter_cons, h]
        exact ih
      · rw [List.find?_cons, List.filter_cons, h]
        rfl

lemma find?_reverse {α : Type} (p : α → Bool) (l : List α) :
    l.reverse.find? p = (l.filter p).getLast? := by
  rw [find?_head_filter, List.filter_reverse, List.head?_reverse]

/-- Claim C1: when the resolver process exits with status zero and
prints at least one non-empty line, _resolve_output_filename returns the
last non-empty printed line, a trailing .webm extension rewritten to
.mp3 and the result reduced to its final path component. -/
theorem resolveOutputFilename_last_nonempty (out err : String)
    (h : (splitlines out).filter (fun l => pyStrip l != "") ≠ []) :
    resolveOutputFilename ⟨0, out, err⟩ =
      Except.ok (posixName (webmToMp3 (pyStrip
        (((splitlines out).filter (fun l => pyStrip l != "")).getLast h)))) := by
  unfold resolveOutputFilename
  rw [if_neg (by simp)]
  rw [pickName_eq, find?_reverse, List.getLast?_eq_getLast _ h]
  rfl

/-- Witness for claim C1: the printed filename My Song.webm, preceded by
a diagnostic line, resolves to My Song.mp3. -/
theorem resolveOutputFilename_last_nonempty_witness :
    resolveOutputFilename ⟨0, "diagnostic line\nMy Song.webm", ""⟩ = Except.ok "My Song.mp3" := by
  have h : (splitlines "diagnostic line\nMy Song.webm").filter (fun l => pyStrip l != "") ≠ [] := by
    decide
  have hthm := resolveOutputFilename_last_nonempty "diagnostic line\nMy Song.webm" "" h
  rw [hthm]
  rfl

/-- Claim C8: a nonzero resolver exit fails with a detail taken from the
stripped standard error, falling back to the stripped standard output,
falling back to a generic message; a zero exit with no non-empty printed
line fails with the generic filename-not-provided message. -/
theorem resolveOutputFilename_failure (p : ProcResult) :
    (p.returncode ≠ 0 →
      resolveOutputFilename p = Except.error
        (if pyStrip p.stderr ≠ "" then pyStrip p.stderr
         else if pyStrip p.stdout ≠ "" then pyStrip p.stdout
         else "Failed to resolve filename")) ∧
    (p.returncode = 0 →
      (∀ l ∈ splitlines p.stdout, pyStrip l = "") →
      resolveOutputFilename p = Except.error "Filename not provided by yt-dlp") := by
  constructor
  · intro h
    unfold resolveOutputFilename
    rw [if_pos h]
    congr 1
    unfold pyOr
    by_cases h1 : pyStrip p.stderr = "" <;> by_cases h2 : pyStrip p.stdout = "" <;>
      simp [h1, h2]
  · intro h hall
    unfold resolveOutputFilename
    rw [if_neg (by simp [h])]
    have hnone : (splitlines p.stdout).reverse.find? (fun l => pyStrip l != "") = none := by
      rw [List.find?_eq_none]
      intro x hx
      simp [hall x (List.mem_reverse.mp hx)]
    rw [pickName_eq, hnone]
    rfl

/-- Witness for claim C8: the three detail fallbacks and the zero-exit
blank-output failure, each at a concrete process outcome. -/
theorem resolveOutputFilename_failure_witness :
    resolveOutputFilename ⟨1, "", " boom "⟩ = Except.error "boom" ∧
    resolveOutputFilename ⟨1, " from stdout ", ""⟩ = Except.error "from stdout" ∧
    resolveOutputFilename ⟨1, "", ""⟩ = Except.error "Failed to resolve filename" ∧
    resolveOutputFilename ⟨0, " \n ", ""⟩ = Except.error "Filename not provided by yt-dlp" := by
  refine ⟨?_, ?_, ?_, ?_⟩
  · have h1 := (resolveOutputFilename_failure ⟨1, "", " boom "⟩).1 (by decide)
    rw [h1]
    rfl
  · have h1 := (resolveOutputFilename_failure ⟨1, " from stdout ", ""⟩).1 (by decide)
    rw [h1]
    rfl
  · have h1 := (resolveOutputFilename_failure ⟨1, "", ""⟩).1 (by decide)
    rw [h1]
    rfl
  · exact (resolveOutputFilename_failure ⟨0, " \n ", ""⟩).2 (by decide) (by decide)

/-- Claim C9: the content-disposition value always carries a non-empty
ASCII fallback filename, falling back to audio.mp3 exactly when removing
quotes and line breaks and stripping non-ASCII characters leaves
nothing, next to the percent-encoded UTF-8 filename parameter. -/
theorem buildContentDisposition_fallback (filename : String) :
    buildContentDisposition filename =
      "attachment; filename=\"" ++
        (if asciiIgnore (pySanitize filename) = "" then "audio.mp3"
         else asciiIgnore (pySanitize filename)) ++
      "\"; filename*=UTF-8" ++ String.mk [apos, apos] ++ pyQuote (pySanitize filename) ∧
    (if asciiIgnore (pySanitize filename) = "" then "audio.mp3"
     else asciiIgnore (pySanitize filename)) ≠ "" := by
  constructor
  · rfl
  · by_cases h : asciiIgnore (pySanitize filename) = ""
    · rw [if_pos h]
      decide
    · rw [if_neg h]
      exact h

lemma events_append (a b : List Step) : events (a ++ b) = events a ++ events b := by
  unfold events
  exact List.filterMap_append _ _ _

lemma events_mkdirSteps (env : Env) : events (mkdirSteps env) = [] := by
  unfold mkdirSteps
  split <;> rfl

lemma events_cons_emit (e : Event) (t : List Step) :
    events (Step.emit e :: t) = e :: events t := rfl

lemma events_cons_spawnResolver (t : List Step) :
    events (Step.spawnResolver :: t) = events t := rfl

lemma events_cons_spawnExtractor (t : List Step) :
    events (Step.spawnExtractor :: t) = events t := rfl

lemma events_logMap (ms : List String) :
    events (ms.map (fun t => Step.emit (Event.log t))) = ms.map Event.log := by
  induction ms with
  | nil => rfl
  | cons a t ih => rw [List.map_cons, List.map_cons, events_cons_emit, ih]

lemma terminalOk_concat (ms : List String) (e : Event) (he : isTerminal e = true) :
    terminalOk (ms.map Event.log ++ [e]) = true := by
  have h1 : (ms.map Event.log ++ [e]).getLast? = some e := List.getLast?_concat _
  have h2 : (ms.map Event.log ++ [e]).dropLast = ms.map Event.log := List.dropLast_concat
  unfold terminalOk
  rw [h1, h2]
  simp [List.all_map, Function.comp, isTerminal]
  exact he

lemma terminalOk_single (e : Event) (he : isTerminal e = true) : terminalOk [e] = true := by
  have h := terminalOk_concat [] e he
  simpa using h

lemma not_spawn_mem_mkdirSteps (env : Env) :
    Step.spawnResolver ∉ mkdirSteps env ∧ Step.spawnExtractor ∉ mkdirSteps env := by
  unfold mkdirSteps
  split <;> simp

lemma filter_isTerminal_logs (ms : List String) :
    (ms.map Event.log).filter isTerminal = [] := by
  induction ms with
  | nil => rfl
  | cons a t ih =>
      rw [List.map_cons, List.filter_cons]
      simp [isTerminal, ih]

lemma all_notComplete_logs (ms : List String) :
    (ms.map Event.log).all (fun e => ! e.isComplete) = true := by
  induction ms with
  | nil => rfl
  | cons a t ih => simp [Event.isComplete, ih]

lemma count_spawnExtractor_logs (ms : List String) :
    (ms.map (fun t => Step.emit (Event.log t))).count Step.spawnExtractor = 0 := by
  induction ms with
  | nil => rfl
  | cons a t ih => simp [List.count_cons, ih]

lemma count_spawnExtractor_mkdirSteps (env : Env) :
    (mkdirSteps env).count Step.spawnExtractor = 0 := by
  unfold mkdirSteps
  split <;> simp

lemma streamDownload_noDest (dest : Option String) (env : Env)
    (hm : destMissing dest = true) :
    streamDownload dest env = [Step.emit (Event.error "Destination directory is required")] := by
  unfold streamDownload
  simp [hm]

lemma streamDownload_mkdirFail (dest : Option String) (env : Env)
    (hm : destMissing dest = false) (he : env.destExists = false) (hk : env.mkdirOk = false) :
    streamDownload dest env = mkdirSteps env ++ [Step.emit (Event.error env.mkdirErr)] := by
  unfold streamDownload
  simp [hm, he, hk]

lemma streamDownload_reject (dest : Option String) (env : Env)
    (hm : destMissing dest = false)
    (hv : env.destExists = true ∨ env.mkdirOk = true)
    (h : env.isDir = false ∨ isRelativeTo env.resolvedDest env.home = false) :
    streamDownload dest env =
      mkdirSteps env ++
        [Step.emit (Event.error "Destination must be a directory under the home folder")] := by
  unfold streamDownload
  have h2 : (!env.destExists && !env.mkdirOk) = false := by
    rcases hv with h1 | h1 <;> simp [h1]
  have h3 : (!env.isDir || !isRelativeTo env.resolvedDest env.home) = true := by
    rcases h with h1 | h1 <;> simp [h1]
  simp [hm, h2, h3]

lemma streamDownload_valid (dest : Option String) (env : Env)
    (hm : destMissing dest = false)
    (hv : env.destExists = true ∨ env.mkdirOk = true)
    (hd : env.isDir = true)
    (hh : isRelativeTo env.resolvedDest env.home = true) :
    streamDownload dest env =
      mkdirSteps env ++ (Step.spawnResolver ::
        (match resolveOutputFilename env.resolver with
         | Except.error detail => [Step.emit (Event.error detail)]
         | Except.ok filename => downloadPhase filename env)) := by
  unfold streamDownload
  have h2 : (!env.destExists && !env.mkdirOk) = false := by
    rcases hv with h1 | h1 <;> simp [h1]
  simp [hm, h2, hd, hh]

lemma terminalOk_extractPhase (d f : String) (env : Env) :
    terminalOk (events (extractPhase d f env)) = true := by
  unfold extractPhase
  by_cases hn : env.extractExit ≠ 0
  · rw [if_pos hn, events_cons_spawnExtractor, events_append, events_logMap]
    exact terminalOk_concat _ _ rfl
  · rw [if_neg hn]
    by_cases hp : env.producedExists = false
    · rw [if_pos hp, events_cons_spawnExtractor, events_append, events_logMap]
      exact terminalOk_concat _ _ rfl
    · rw [if_neg hp, events_cons_spawnExtractor, events_append, events_logMap]
      exact terminalOk_concat _ (Event.complete f) rfl

lemma terminalOk_downloadPhase (f : String) (env : Env) :
    terminalOk (events (downloadPhase f env)) = true := by
  unfold downloadPhase
  by_cases hc : env.fileExists = true
  · rw [if_pos hc]
    exact terminalOk_concat ["Using cached audio for " ++ f] (Event.complete f) rfl
  · rw [if_neg hc]
    exact terminalOk_extractPhase _ _ _

/-- Claim C3: for every destination argument and world state, the frame
list produced by one exhausted run of _stream_download is nonempty, its
last frame is the single terminal error or complete frame, and no
earlier frame is terminal. -/
theorem streamDownload_singleTerminal (dest : Option String) (env : Env) :
    terminalOk (events (streamDownload dest env)) = true := by
  by_cases hm : destMissing dest = true
  · rw [streamDownload_noDest dest env hm]
    exact terminalOk_single _ rfl
  · simp only [Bool.not_eq_true] at hm
    by_cases hv : env.destExists = false ∧ env.mkdirOk = false
    · rw [streamDownload_mkdirFail dest env hm hv.1 hv.2, events_append, events_mkdirSteps]
      exact terminalOk_single _ rfl
    · have hv' : env.destExists = true ∨ env.mkdirOk = true := by
        rcases Bool.eq_false_or_eq_true env.destExists with h1 | h1
        · exact Or.inl h1
        · rcases Bool.eq_false_or_eq_true env.mkdirOk with h2 | h2
          · exact Or.inr h2
          · exact absurd ⟨h1, h2⟩ hv
      by_cases hd : env.isDir = true
      · by_cases hh : isRelativeTo env.resolvedDest env.home = true
        · rw [streamDownload_valid dest env hm hv' hd hh, events_append, events_mkdirSteps,
            List.nil_append]
          cases hres : resolveOutputFilename env.resolver with
          | error detail =>
              rw [events_cons_spawnResolver]
              exact terminalOk_single _ rfl
          | ok f =>
              rw [events_cons_spawnResolver]
              exact terminalOk_downloadPhase f env
        · simp only [Bool.not_eq_true] at hh
          rw [streamDownload_reject dest env hm hv' (Or.inr hh), events_append, events_mkdirSteps]
          exact terminalOk_single _ rfl
      · simp only [Bool.not_eq_true] at hd
        rw [streamDownload_reject dest env hm hv' (Or.inl hd), events_append, events_mkdirSteps]
        exact terminalOk_single _ rfl

lemma not_both_false {a b : Bool} (h : ¬(a = false ∧ b = false)) : a = true ∨ b = true := by
  rcases Bool.eq_false_or_eq_true a with h1 | h1
  · exact Or.inl h1
  · rcases Bool.eq_false_or_eq_true b with h2 | h2
    · exact Or.inr h2
    · exact absurd ⟨h1, h2⟩ h

lemma spawn_free_mkdir_emit (env : Env) (e : Event) :
    Step.spawnResolver ∉ mkdirSteps env ++ [Step.emit e] ∧
    Step.spawnExtractor ∉ mkdirSteps env ++ [Step.emit e] := by
  refine ⟨fun hmem => ?_, fun hmem => ?_⟩
  · rcases List.mem_append.mp hmem with h1 | h1
    · exact (not_spawn_mem_mkdirSteps env).1 h1
    · simp at h1
  · rcases List.mem_append.mp hmem with h1 | h1
    · exact (not_spawn_mem_mkdirSteps env).2 h1
    · simp at h1

lemma events_mkdir_emit (env : Env) (e : Event) :
    events (mkdirSteps env ++ [Step.emit e]) = [e] := by
  rw [events_append, events_mkdirSteps]
  rfl

/-- Claim C2: with a valid destination, a successful resolution and the
predicted file already present, the run touches the cached file, emits
one reuse log frame and the completion frame, and never spawns the
extraction process. -/
theorem streamDownload_cacheHit (dest : Option String) (env : Env) (f : String)
    (hm : destMissing dest = false)
    (hv : env.destExists = true ∨ env.mkdirOk = true)
    (hd : env.isDir = true)
    (hh : isRelativeTo env.resolvedDest env.home = true)
    (hr : resolveOutputFilename env.resolver = Except.ok f)
    (hc : env.fileExists = true) :
    streamDownload dest env =
      mkdirSteps env ++
        [Step.spawnResolver,
         Step.touch (env.resolvedDest ++ "/" ++ f),
         Step.emit (Event.log ("Using cached audio for " ++ f)),
         Step.emit (Event.complete f)] ∧
    events (streamDownload dest env) =
      [Event.log ("Using cached audio for " ++ f), Event.complete f] ∧
    Step.spawnExtractor ∉ streamDownload dest env := by
  have htr : streamDownload dest env =
      mkdirSteps env ++
        [Step.spawnResolver,
         Step.touch (env.resolvedDest ++ "/" ++ f),
         Step.emit (Event.log ("Using cached audio for " ++ f)),
         Step.emit (Event.complete f)] := by
    rw [streamDownload_valid dest env hm hv hd hh, hr]
    simp [downloadPhase, hc]
  refine ⟨htr, ?_, ?_⟩
  · rw [htr, events_append, events_mkdirSteps]
    rfl
  · rw [htr]
    intro hmem
    rcases List.mem_append.mp hmem with h1 | h1
    · exact (not_spawn_mem_mkdirSteps env).2 h1
    · simp at h1

/-- Witness for claim C2 at a concrete request. -/
theorem streamDownload_cacheHit_witness :
    events (streamDownload (some "/home/u/music") envCacheHit) =
      [Event.log "Using cached audio for My Song.mp3", Event.complete "My Song.mp3"] ∧
    Step.spawnExtractor ∉ streamDownload (some "/home/u/music") envCacheHit := by
  have h := streamDownload_cacheHit (some "/home/u/music") envCacheHit "My Song.mp3"
    (by decide) (Or.inl rfl) rfl (by decide) (by rfl) rfl
  refine ⟨?_, h.2.2⟩
  rw [h.2.1]
  rfl

/-- Claim C4: a destination that is not a directory or escapes the home
root is rejected with the invalid-destination error frame and neither
the resolver nor the extractor is spawned. -/
theorem streamDownload_sandboxReject (dest : Option String) (env : Env)
    (hm : destMissing dest = false)
    (h : env.isDir = false ∨ isRelativeTo env.resolvedDest env.home = false) :
    (Step.spawnResolver ∉ streamDownload dest env ∧
     Step.spawnExtractor ∉ streamDownload dest env) ∧
    (∃ m, events (streamDownload dest env) = [Event.error m]) ∧
    ((env.destExists = true ∨ env.mkdirOk = true) →
      events (streamDownload dest env) =
        [Event.error "Destination must be a directory under the home folder"]) := by
  by_cases hv : env.destExists = false ∧ env.mkdirOk = false
  · have htr := streamDownload_mkdirFail dest env hm hv.1 hv.2
    refine ⟨⟨?_, ?_⟩, ⟨env.mkdirErr, ?_⟩, ?_⟩
    · rw [htr]; exact (spawn_free_mkdir_emit env _).1
    · rw [htr]; exact (spawn_free_mkdir_emit env _).2
    · rw [htr]; exact events_mkdir_emit env _
    · intro hor
      rcases hor with h1 | h1
      · rw [hv.1] at h1; exact absurd h1 (by simp)
      · rw [hv.2] at h1; exact absurd h1 (by simp)
  · have hv' := not_both_false hv
    have htr := streamDownload_reject dest env hm hv' h
    refine ⟨⟨?_, ?_⟩,
      ⟨"Destination must be a directory under the home folder", ?_⟩, ?_⟩
    · rw [htr]; exact (spawn_free_mkdir_emit env _).1
    · rw [htr]; exact (spawn_free_mkdir_emit env _).2
    · rw [htr]; exact events_mkdir_emit env _
    · intro _
      rw [htr]; exact events_mkdir_emit env _

/-- Witness for claim C4 at a concrete request. -/
theorem streamDownload_sandboxReject_witness :
    (Step.spawnResolver ∉ streamDownload (some "/home/u/file.txt") envSandbox ∧
     Step.spawnExtractor ∉ streamDownload (some "/home/u/file.txt") envSandbox) ∧
    events (streamDownload (some "/home/u/file.txt") envSandbox) =
      [Event.error "Destination must be a directory under the home folder"] := by
  have h := streamDownload_sandboxReject (some "/home/u/file.txt") envSandbox (by decide)
    (Or.inl rfl)
  exact ⟨h.1, h.2.2 (Or.inl rfl)⟩

/-- Claim C5: a nonzero extraction exit status N yields, after the
forwarded log frames, exactly one terminal frame, the error frame whose
message carries the numeric status, no completion frame, and a single
extraction spawn. -/
theorem streamDownload_extractFail (dest : Option String) (env : Env) (f : String)
    (hm : destMissing dest = false)
    (hv : env.destExists = true ∨ env.mkdirOk = true)
    (hd : env.isDir = true)
    (hh : isRelativeTo env.resolvedDest env.home = true)
    (hr : resolveOutputFilename env.resolver = Except.ok f)
    (hc : env.fileExists = false)
    (hn : env.extractExit ≠ 0) :
    events (streamDownload dest env) =
      (logMessages env.extractLines).map Event.log ++
        [Event.error ("yt-dlp exited with status " ++ toString env.extractExit)] ∧
    (events (streamDownload dest env)).filter isTerminal =
      [Event.error ("yt-dlp exited with status " ++ toString env.extractExit)] ∧
    (events (streamDownload dest env)).all (fun e => ! e.isComplete) = true ∧
    (streamDownload dest env).count Step.spawnExtractor = 1 := by
  have htr : streamDownload dest env =
      mkdirSteps env ++
        (Step.spawnResolver :: extractPhase (env.resolvedDest ++ "/" ++ f) f env) := by
    rw [streamDownload_valid dest env hm hv hd hh, hr]
    simp [downloadPhase, hc]
  have hex : extractPhase (env.resolvedDest ++ "/" ++ f) f env =
      Step.spawnExtractor ::
        ((logMessages env.extractLines).map (fun t => Step.emit (Event.log t)) ++
          [Step.emit (Event.error ("yt-dlp exited with status " ++ toString env.extractExit))]) := by
    unfold extractPhase
    rw [if_pos hn]
  have hev : events (streamDownload dest env) =
      (logMessages env.extractLines).map Event.log ++
        [Event.error ("yt-dlp exited with status " ++ toString env.extractExit)] := by
    rw [htr, hex, events_append, events_mkdirSteps, List.nil_append, events_cons_spawnResolver,
      events_cons_spawnExtractor, events_append, events_logMap]
    rfl
  refine ⟨hev, ?_, ?_, ?_⟩
  · rw [hev, List.filter_append, filter_isTerminal_logs, List.nil_append]
    rfl
  · rw [hev, List.all_append, all_notComplete_logs]
    rfl
  · rw [htr, hex]
    simp [List.count_append, List.count_cons, count_spawnExtractor_mkdirSteps,
      count_spawnExtractor_logs]

/-- Witness for claim C5 at a concrete request. -/
theorem streamDownload_extractFail_witness :
    events (streamDownload (some "/home/u/music") envExitFail) =
      [Event.log "[download] Destination: x", Event.log "ERROR: video unavailable",
       Event.error "yt-dlp exited with status 1"] ∧
    (streamDownload (some "/home/u/music") envExitFail).count Step.spawnExtractor = 1 := by
  have h := streamDownload_extractFail (some "/home/u/music") envExitFail "My Song.mp3"
    (by decide) (Or.inl rfl) rfl (by decide) (by rfl) rfl (by decide)
  refine ⟨?_, h.2.2.2⟩
  rw [h.1]
  rfl

/-- Claim C6: a zero extraction exit with no file at the expected
destination yields the no-audio-file error frame and no completion
frame. -/
theorem streamDownload_noArtifact (dest : Option String) (env : Env) (f : String)
    (hm : destMissing dest = false)
    (hv : env.destExists = true ∨ env.mkdirOk = true)
    (hd : env.isDir = true)
    (hh : isRelativeTo env.resolvedDest env.home = true)
    (hr : resolveOutputFilename env.resolver = Except.ok f)
    (hc : env.fileExists = false)
    (hn0 : env.extractExit = 0)
    (hp : env.producedExists = false) :
    events (streamDownload dest env) =
      (logMessages env.extractLines).map Event.log ++
        [Event.error "No audio file produced"] ∧
    (events (streamDownload dest env)).filter isTerminal =
      [Event.error "No audio file produced"] ∧
    (events (streamDownload dest env)).all (fun e => ! e.isComplete) = true := by
  have htr : streamDownload dest env =
      mkdirSteps env ++
        (Step.spawnResolver :: extractPhase (env.resolvedDest ++ "/" ++ f) f env) := by
    rw [streamDownload_valid dest env hm hv hd hh, hr]
    simp [downloadPhase, hc]
  have hex : extractPhase (env.resolvedDest ++ "/" ++ f) f env =
      Step.spawnExtractor ::
        ((logMessages env.extractLines).map (fun t => Step.emit (Event.log t)) ++
          [Step.emit (Event.error "No audio file produced")]) := by
    unfold extractPhase
    rw [if_neg (by simp [hn0]), if_pos hp]
  have hev : events (streamDownload dest env) =
      (logMessages env.extractLines).map Event.log ++
        [Event.error "No audio file produced"] := by
    rw [htr, hex, events_append, events_mkdirSteps, List.nil_append, events_cons_spawnResolver,
      events_cons_spawnExtractor, events_append, events_logMap]
    rfl
  refine ⟨hev, ?_, ?_⟩
  · rw [hev, List.filter_append, filter_isTerminal_logs, List.nil_append]
    rfl
  · rw [hev, List.all_append, all_notComplete_logs]
    rfl

/-- Witness for claim C6 at a concrete request. -/
theorem streamDownload_noArtifact_witness :
    events (streamDownload (some "/home/u/music") envNoFile) =
      [Event.log "[ExtractAudio] done", Event.error "No audio file produced"] ∧
    (events (streamDownload (some "/home/u/music") envNoFile)).all
      (fun e => ! e.isComplete) = true := by
  have h := streamDownload_noArtifact (some "/home/u/music") envNoFile "My Song.mp3"
    (by decide) (Or.inl rfl) rfl (by decide) (by rfl) rfl rfl rfl
  refine ⟨?_, h.2.2⟩
  rw [h.1]
  rfl

/-- Claim C10: a nonexistent destination directory is created, parents
included, before the home-root check runs, so a destination resolving
outside the home root is created on disk and the request is only then
rejected. -/
theorem streamDownload_mkdirOutsideRoot (dest : Option String) (env : Env)
    (hm : destMissing dest = false)
    (he : env.destExists = false)
    (hk : env.mkdirOk = true)
    (hh : isRelativeTo env.resolvedDest env.home = false) :
    streamDownload dest env =
      [Step.mkdirParents env.resolvedDest,
       Step.emit (Event.error "Destination must be a directory under the home folder")] := by
  rw [streamDownload_reject dest env hm (Or.inr hk) (Or.inr hh)]
  simp [mkdirSteps, he]

/-- Witness for claim C10 at a concrete request. -/
theorem streamDownload_mkdirOutsideRoot_witness :
    streamDownload (some "/tmp/escape") envOutside =
      [Step.mkdirParents "/tmp/escape",
       Step.emit (Event.error "Destination must be a directory under the home folder")] := by
  have h := streamDownload_mkdirOutsideRoot (some "/tmp/escape") envOutside
    (by decide) rfl rfl (by decide)
  exact h

/-- Counterexample to claim C7: for a request with a missing
destination, the rejection is surfaced as an error frame on the progress
stream itself, contradicting that the failure is not surfaced as a
stream event. -/
theorem streamDownload_missingDest_counterexample :
    events (streamDownload none envBare) = [Event.error "Destination directory is required"] ∧
    Event.error "Destination directory is required" ∈ events (streamDownload none envBare) := by
  have h : events (streamDownload none envBare) =
      [Event.error "Destination directory is required"] := rfl
  exact ⟨h, h ▸ List.mem_singleton.mpr rfl⟩

/-- Claim C7 as amended: a missing or invalid destination is rejected
before either external process is spawned, and the failure is surfaced
as a single terminal error frame on the progress stream. -/
theorem streamDownload_invalidDest_streamError (dest : Option String) (env : Env)
    (h : destMissing dest = true ∨ env.isDir = false ∨
         isRelativeTo env.resolvedDest env.home = false ∨
         (env.destExists = false ∧ env.mkdirOk = false)) :
    (Step.spawnResolver ∉ streamDownload dest env ∧
     Step.spawnExtractor ∉ streamDownload dest env) ∧
    ∃ m, events (streamDownload dest env) = [Event.error m] := by
  by_cases hm : destMissing dest = true
  · rw [streamDownload_noDest dest env hm]
    refine ⟨⟨by simp, by simp⟩, ⟨_, rfl⟩⟩
  · simp only [Bool.not_eq_true] at hm
    have h' : env.isDir = false ∨ isRelativeTo env.resolvedDest env.home = false ∨
        (env.destExists = false ∧ env.mkdirOk = false) := by
      rcases h with h1 | h1 | h1 | h1
      · rw [hm] at h1; exact absurd h1 (by simp)
      · exact Or.inl h1
      · exact Or.inr (Or.inl h1)
      · exact Or.inr (Or.inr h1)
    by_cases hv : env.destExists = false ∧ env.mkdirOk = false
    · have htr := streamDownload_mkdirFail dest env hm hv.1 hv.2
      refine ⟨⟨?_, ?_⟩, ⟨env.mkdirErr, ?_⟩⟩
      · rw [htr]; exact (spawn_free_mkdir_emit env _).1
      · rw [htr]; exact (spawn_free_mkdir_emit env _).2
      · rw [htr]; exact events_mkdir_emit env _
    · have hv' := not_both_false hv
      have h'' : env.isDir = false ∨ isRelativeTo env.resolvedDest env.home = false := by
        rcases h' with h1 | h1 | h1
        · exact Or.inl h1
        · exact Or.inr h1
        · exact absurd h1 hv
      have htr := streamDownload_reject dest env hm hv' h''
      refine ⟨⟨?_, ?_⟩,
        ⟨"Destination must be a directory under the home folder", ?_⟩⟩
      · rw [htr]; exact (spawn_free_mkdir_emit env _).1
      · rw [htr]; exact (spawn_free_mkdir_emit env _).2
      · rw [htr]; exact events_mkdir_emit env _

/-- Witness for the amended claim C7 at a concrete request. -/
theorem streamDownload_invalidDest_streamError_witness :
    (Step.spawnResolver ∉ streamDownload none envBare ∧
     Step.spawnExtractor ∉ streamDownload none envBare) ∧
    ∃ m, events (streamDownload none envBare) = [Event.error m] :=
  streamDownload_invalidDest_streamError none envBare (Or.inl rfl)


end YtApi
